import Mathlib

/-
  Verification of `src/bigip/resource_bigip_ltm_node.go`, the LTM node
  resource handler of the terraform-provider-bigip repository.

  The four CRUD functions plus Exists are embedded shallowly.  External
  collaborators (the remote API client and the host plugin runtime's
  property bag) are modelled from the specification, as marked on each
  definition; everything else is translated directly from the Go source.
  Machine traces (`List ApiCall`) record which remote calls each operation
  issues, in order.
-/

namespace TFBigip

/-- Error value returned by the remote API client (Go `error`). -/
structure ApiError where
  msg : String
deriving DecidableEq

/-- Outcome of a Go function returning `error`, with a distinct constructor
for a runtime panic (nil-slice index, failed type assertion). -/
inductive GoResult where
  | ok
  | err (e : ApiError)
  | panicked
deriving DecidableEq

/-- The `FQDN` sub-struct of the remote `bigip.Node` object; only the
`Name` field is consulted by this resource. -/
structure FQDNInfo where
  name : String
deriving DecidableEq

/-- The remote `bigip.Node` object, restricted to the fields this resource
reads or writes. -/
structure Node where
  address : String
  fqdn : FQDNInfo
  monitor : String
  rateLimit : String
  connectionLimit : Int
  dynamicRatio : Int
  state : String
deriving DecidableEq

/-- The `bigip.Node` struct literal built by `resourceBigipLtmNodeUpdate`
as the modify payload.  Fields not assigned in the Go literal keep the Go
zero value (empty string / 0). -/
structure NodePayload where
  address : String
  connectionLimit : Int
  dynamicRatio : Int
  monitor : String
  rateLimit : String
  state : String
deriving DecidableEq

/-- Modelled from the spec: the state blob the host plugin runtime persists
for this resource (the identifier plus the fields `Read` writes back via
`d.Set`). -/
structure ResourceState where
  id : String
  address : String
  name : String
  monitor : String
  rateLimit : String
  connectionLimit : Int
  dynamicRatio : Int
deriving DecidableEq

/-- One entry of the `fqdn` list, shaped exactly like the schema block
declared in `resourceBigipLtmNode` (defaults "3600", 5, "disabled"). -/
structure FQDNRecord where
  address_family : String
  name : String
  interval : String
  down_interval : Int
  autopopulate : String
deriving DecidableEq

/-- Modelled from the spec: the desired-state record (NodeSpec) the host
plugin runtime supplies, keyed by the schema field names. -/
structure NodeConfig where
  name : String
  address : String
  rate_limit : String
  connection_limit : Int
  dynamic_ratio : Int
  ratio : Int
  monitor : String
  state : String
  fqdn : List FQDNRecord
deriving DecidableEq

/-- An untyped value held by the host runtime's property bag (`d.Get`
returns `interface\x7b\x7d`; a missing key yields nil). -/
inductive Attr where
  | str (s : String)
  | int (n : Int)
  | nil
deriving DecidableEq

/-- The Go type assertion `.(string)`: succeeds only on a string value;
on anything else (in particular nil) the Go program panics, which the
callers below surface as `GoResult.panicked`. -/
def asString : Attr → Option String
  | Attr.str s => some s
  | _ => none

/-- The Go type assertion `.(int)`. -/
def asInt : Attr → Option Int
  | Attr.int n => some n
  | _ => none

/-- Modelled from the spec: the host runtime lookup
`d.Get("fqdn.<i>.<field>")` for the fqdn sub-record — it supplies
desired-state field values keyed by name per the NodeSpec/schema shape,
and yields nil for a key outside that shape. -/
def fqdnGet (cfg : NodeConfig) (i : Nat) (field : String) : Attr :=
  match cfg.fqdn[i]? with
  | none => Attr.nil
  | some sub =>
    if field = "address_family" then Attr.str sub.address_family
    else if field = "name" then Attr.str sub.name
    else if field = "interval" then Attr.str sub.interval
    else if field = "down_interval" then Attr.int sub.down_interval
    else if field = "autopopulate" then Attr.str sub.autopopulate
    else Attr.nil

/-- A remote API call, as recorded in an operation's trace. -/
inductive ApiCall where
  | createNode (name address rate_limit : String)
      (connection_limit dynamic_ratio ratio : Int) (monitor state : String)
  | createFQDNNode (name address rate_limit : String)
      (connection_limit dynamic_ratio ratio : Int) (monitor state : String)
      (interval : String) (down_interval : Int) (auto_populate : String)
  | getNode (name : String)
  | modifyNode (name : String) (payload : NodePayload)
  | deleteNode (name : String)
deriving DecidableEq

/-- Whether a call is the static-node create call. -/
def ApiCall.isCreateStatic : ApiCall → Bool
  | ApiCall.createNode .. => true
  | _ => false

/-- Whether a call is the FQDN-node create call. -/
def ApiCall.isCreateFqdn : ApiCall → Bool
  | ApiCall.createFQDNNode .. => true
  | _ => false

/-- Whether a call is a node fetch (issued only by Read/Exists). -/
def ApiCall.isGet : ApiCall → Bool
  | ApiCall.getNode _ => true
  | _ => false

/-- Whether a call is a node modification. -/
def ApiCall.isModify : ApiCall → Bool
  | ApiCall.modifyNode .. => true
  | _ => false

/-- Modelled from the spec: the remote API client collaborator
(`CreateNode`, `CreateFQDNNode`, `GetNode`, `ModifyNode`, `DeleteNode`),
each one blocking round trip; `getNode` returns a not-found sentinel
(`none`) rather than an error when the node is absent. -/
structure BigIPClient where
  createNode : String → String → String → Int → Int → Int → String → String → Option ApiError
  createFQDNNode : String → String → String → Int → Int → Int → String → String →
      String → Int → String → Option ApiError
  getNode : String → Except ApiError (Option Node)
  modifyNode : String → NodePayload → Option ApiError
  deleteNode : String → Option ApiError

/- ------------------------------------------------------------------ -/
/- The classification regular expression of Create and Update:
   `^((?:[0-9]\x7b1,3\x7d.)\x7b3\x7d[0-9]\x7b1,3\x7d)|(.*:.*)$`
   (note: the dot after the digit class is NOT escaped in the source, so
   it matches any character except a newline).  `MatchString` reports
   whether a match exists anywhere: the left alternative is anchored at
   the start only, the right one at the end only.                       -/
/- ------------------------------------------------------------------ -/

/-- All remainders of `cs` after consuming one, two or three leading
characters of the class `[0-9]`. -/
def afterDigits (cs : List Char) : List (List Char) :=
  match cs with
  | [] => []
  | c1 :: r1 =>
    if c1.isDigit then
      r1 :: (match r1 with
        | [] => []
        | c2 :: r2 =>
          if c2.isDigit then
            r2 :: (match r2 with
              | [] => []
              | c3 :: r3 => if c3.isDigit then [r3] else [])
          else [])
    else []

/-- Matching the left alternative of the source regex at the current
position: `n` further groups of (1-3 digits, then one arbitrary
non-newline character — the unescaped dot), ending in 1-3 digits. -/
def matchIpAnySep : Nat → List Char → Bool
  | 0, cs => !(afterDigits cs).isEmpty
  | n + 1, cs => (afterDigits cs).any fun r =>
      match r with
      | [] => false
      | x :: r2 => (x != '\n') && matchIpAnySep n r2

/-- Matching the right alternative `(.*:.*)$` somewhere in the string: a
colon after which no newline occurs (Go's `.` does not match newlines,
and `$` anchors at the end of the text). -/
def matchColonToEnd : List Char → Bool
  | [] => false
  | ch :: r => (ch == ':' && r.all fun x => x != '\n') || matchColonToEnd r

/-- `r.MatchString(address)` for the classification regex compiled in
`resourceBigipLtmNodeCreate` and `resourceBigipLtmNodeUpdate`. -/
def nodeRegexMatch (s : String) : Bool :=
  matchIpAnySep 3 s.data || matchColonToEnd s.data

/-- Like `matchIpAnySep`, but the separator must be a literal dot. -/
def matchIpDotSep : Nat → List Char → Bool
  | 0, cs => !(afterDigits cs).isEmpty
  | n + 1, cs => (afterDigits cs).any fun r =>
      match r with
      | '.' :: r2 => matchIpDotSep n r2
      | _ => false

/-- Modelled from the spec: the classification regular expression exactly
as the spec writes it, with an escaped dot
(`^((\d\x7b1,3\x7d\.)\x7b3\x7d\d\x7b1,3\x7d)|(.*:.*)$`).  Used only to
compare the spec's classification with the source's. -/
def specStaticRegexMatch (s : String) : Bool :=
  matchIpDotSep 3 s.data || matchColonToEnd s.data

/- ------------------------------------------------------------------ -/
/- The extraction pattern of Read:
   `((?:[0-9]\x7b1,3\x7d\.)\x7b3\x7d[0-9]\x7b1,3\x7d)(?:\%\d+)?`
   via `FindStringSubmatch`: the leftmost match, submatch 1 being the
   dotted quad without the route-domain suffix.                        -/
/- ------------------------------------------------------------------ -/

/-- Match `[0-9]\x7b1,3\x7d\.` at the front: a run of one to three digits
followed by a literal dot (the run length is forced by the input, so
greedy matching with backtracking is deterministic here).  Returns the
consumed characters (digits plus dot) and the rest. -/
def matchOctetDot : List Char → Option (List Char × List Char)
  | [] => none
  | c1 :: r1 =>
    if c1.isDigit then
      match r1 with
      | [] => none
      | c2 :: r2 =>
        if c2 = '.' then some ([c1, '.'], r2)
        else if c2.isDigit then
          match r2 with
          | [] => none
          | c3 :: r3 =>
            if c3 = '.' then some ([c1, c2, '.'], r3)
            else if c3.isDigit then
              match r3 with
              | [] => none
              | c4 :: r4 => if c4 = '.' then some ([c1, c2, c3, '.'], r4) else none
            else none
        else none
    else none

/-- Match the final `[0-9]\x7b1,3\x7d` greedily: up to three leading
digits, at least one. -/
def matchFinalOctet : List Char → Option (List Char)
  | [] => none
  | c1 :: r1 =>
    if c1.isDigit then
      match r1 with
      | [] => some [c1]
      | c2 :: r2 =>
        if c2.isDigit then
          match r2 with
          | [] => some [c1, c2]
          | c3 :: _ => if c3.isDigit then some [c1, c2, c3] else some [c1, c2]
        else some [c1]
    else none

/-- Attempt the whole extraction pattern at the current position,
returning submatch 1 (the dotted quad; the optional `%<int>` group never
contributes to it). -/
def matchIPAt (cs : List Char) : Option (List Char) :=
  match matchOctetDot cs with
  | none => none
  | some (g1, r1) =>
    match matchOctetDot r1 with
    | none => none
    | some (g2, r2) =>
      match matchOctetDot r2 with
      | none => none
      | some (g3, r3) =>
        match matchFinalOctet r3 with
        | none => none
        | some g4 => some (g1 ++ g2 ++ g3 ++ g4)

/-- `regex.FindStringSubmatch(...)`'s submatch 1: scan positions left to
right, return the first (leftmost) match; `none` when the pattern does
not match anywhere — in which case the Go source's `address[1]` indexes a
nil slice and panics. -/
def findIPv4 : List Char → Option String
  | [] => none
  | c :: rest =>
    match matchIPAt (c :: rest) with
    | some g => some (String.mk g)
    | none => findIPv4 rest

/-- An octet of a dotted quad as the patterns see it: one to three
characters, all digits. -/
def isOctet : List Char → Bool
  | [a] => a.isDigit
  | [a, b] => a.isDigit && b.isDigit
  | [a, b, c] => a.isDigit && b.isDigit && c.isDigit
  | _ => false

/- ------------------------------------------------------------------ -/
/- The CRUD operations.                                                -/
/- ------------------------------------------------------------------ -/

/-- The sequence of `d.Set` calls Read performs once a node was fetched:
address (already normalized), name, monitor, rate_limit,
connection_limit, dynamic_ratio. -/
def writeNodeState (st : ResourceState) (name : String) (node : Node) (addr : String) :
    ResourceState :=
  { st with
    address := addr
    name := name
    monitor := node.monitor
    rateLimit := node.rateLimit
    connectionLimit := node.connectionLimit
    dynamicRatio := node.dynamicRatio }

/-- `resourceBigipLtmNodeRead`: fetch by id; an error propagates; a nil
node clears the id (NotFound → drop from state) and returns nil; a found
node has its address normalized (FQDN name wins, else IPv4 extraction —
which panics when the pattern does not match) and its fields written. -/
def resourceBigipLtmNodeRead (client : BigIPClient) (st : ResourceState) :
    List ApiCall × ResourceState × GoResult :=
  let name := st.id
  ([ApiCall.getNode name],
    match client.getNode name with
    | Except.error e => (st, GoResult.err e)
    | Except.ok none => ({ st with id := "" }, GoResult.ok)
    | Except.ok (some node) =>
      if node.fqdn.name ≠ "" then
        (writeNodeState st name node node.fqdn.name, GoResult.ok)
      else
        match findIPv4 node.address.data with
        | none => (st, GoResult.panicked)
        | some ip => (writeNodeState st name node ip, GoResult.ok))

/-- `resourceBigipLtmNodeExists`: fetch by id; an error propagates as
(false, err); a nil node clears the id and yields (false, nil); a found
node yields (true, nil). -/
def resourceBigipLtmNodeExists (client : BigIPClient) (st : ResourceState) :
    List ApiCall × ResourceState × (Bool × Option ApiError) :=
  ([ApiCall.getNode st.id],
    match client.getNode st.id with
    | Except.error e => (st, (false, some e))
    | Except.ok none => ({ st with id := "" }, (false, none))
    | Except.ok (some _) => (st, (true, none)))

/-- Prefix already-issued calls onto the result of a follow-up operation
(the Go `return resourceBigipLtmNodeRead(d, meta)` tail calls). -/
def prependCalls (calls : List ApiCall)
    (r : List ApiCall × ResourceState × GoResult) :
    List ApiCall × ResourceState × GoResult :=
  (calls ++ r.1, r.2.1, r.2.2)

/-- Result of the FQDN create loop: either a Go panic (the loop body's
`d.Get(prefix + ".auto_populate").(string)` — a key absent from the
schema, so the lookup yields nil and the assertion panics), or normal
completion with the `err` variable as overwritten by the last iteration. -/
inductive LoopOut where
  | panicked (calls : List ApiCall)
  | done (calls : List ApiCall) (e : Option ApiError)
deriving DecidableEq

/-- The `for i := 0; i < ifaceCount; i++` loop of
`resourceBigipLtmNodeCreate`: per iteration fetch interval,
down_interval and auto_populate for `fqdn.<i>`, then issue
`CreateFQDNNode`, overwriting `err` each time. -/
def fqdnCreateLoop (client : BigIPClient) (cfg : NodeConfig) :
    Nat → Nat → Option ApiError → List ApiCall → LoopOut
  | _, 0, e, acc => LoopOut.done acc.reverse e
  | i, fuel + 1, _, acc =>
    match asString (fqdnGet cfg i "interval") with
    | none => LoopOut.panicked acc.reverse
    | some interval =>
      match asInt (fqdnGet cfg i "down_interval") with
      | none => LoopOut.panicked acc.reverse
      | some down_interval =>
        match asString (fqdnGet cfg i "auto_populate") with
        | none => LoopOut.panicked acc.reverse
        | some auto_populate =>
          let e := client.createFQDNNode cfg.name cfg.address cfg.rate_limit
            cfg.connection_limit cfg.dynamic_ratio cfg.ratio cfg.monitor cfg.state
            interval down_interval auto_populate
          fqdnCreateLoop client cfg (i + 1) fuel e
            (ApiCall.createFQDNNode cfg.name cfg.address cfg.rate_limit
              cfg.connection_limit cfg.dynamic_ratio cfg.ratio cfg.monitor cfg.state
              interval down_interval auto_populate :: acc)

/-- `resourceBigipLtmNodeCreate`: classify the address with the source
regex; static → one `CreateNode` call; otherwise the FQDN loop over
`fqdn.#` entries.  A non-nil `err` is returned as is (before `SetId`);
otherwise the id is set to the name and Read is invoked. -/
def resourceBigipLtmNodeCreate (client : BigIPClient) (cfg : NodeConfig)
    (st : ResourceState) : List ApiCall × ResourceState × GoResult :=
  let name := cfg.name
  let address := cfg.address
  let rate_limit := cfg.rate_limit
  let connection_limit := cfg.connection_limit
  let dynamic_ratio := cfg.dynamic_ratio
  let ratio := cfg.ratio
  let monitor := cfg.monitor
  let state := cfg.state
  if nodeRegexMatch address then
    match client.createNode name address rate_limit connection_limit dynamic_ratio
        ratio monitor state with
    | some e =>
      ([ApiCall.createNode name address rate_limit connection_limit dynamic_ratio
          ratio monitor state], st, GoResult.err e)
    | none =>
      prependCalls
        [ApiCall.createNode name address rate_limit connection_limit dynamic_ratio
          ratio monitor state]
        (resourceBigipLtmNodeRead client { st with id := name })
  else
    let ifaceCount := cfg.fqdn.length
    match fqdnCreateLoop client cfg 0 ifaceCount none [] with
    | LoopOut.panicked calls => (calls, st, GoResult.panicked)
    | LoopOut.done calls (some e) => (calls, st, GoResult.err e)
    | LoopOut.done calls none =>
      prependCalls calls (resourceBigipLtmNodeRead client { st with id := name })

/-- The `bigip.Node` struct literal built in the static branch of Update
(with `Address`); it is constructed but never passed to `ModifyNode`. -/
def staticUpdatePayload (cfg : NodeConfig) : NodePayload :=
  { address := cfg.address
    connectionLimit := cfg.connection_limit
    dynamicRatio := cfg.dynamic_ratio
    monitor := cfg.monitor
    rateLimit := cfg.rate_limit
    state := cfg.state }

/-- The `bigip.Node` struct literal built in the FQDN branch of Update
(no `Address` assignment → Go zero value). -/
def fqdnUpdatePayload (cfg : NodeConfig) : NodePayload :=
  { address := ""
    connectionLimit := cfg.connection_limit
    dynamicRatio := cfg.dynamic_ratio
    monitor := cfg.monitor
    rateLimit := cfg.rate_limit
    state := cfg.state }

/-- `resourceBigipLtmNodeUpdate`: re-classify the address; in the static
branch the payload is built but `ModifyNode` is never called and the
function falls through to Read; in the FQDN branch `ModifyNode` is
called, its error (if any) returned immediately, else Read follows. -/
def resourceBigipLtmNodeUpdate (client : BigIPClient) (cfg : NodeConfig)
    (st : ResourceState) : List ApiCall × ResourceState × GoResult :=
  let name := st.id
  let address := cfg.address
  if nodeRegexMatch address then
    let _node := staticUpdatePayload cfg
    resourceBigipLtmNodeRead client st
  else
    let node := fqdnUpdatePayload cfg
    match client.modifyNode name node with
    | some e => ([ApiCall.modifyNode name node], st, GoResult.err e)
    | none => prependCalls [ApiCall.modifyNode name node]
        (resourceBigipLtmNodeRead client st)

/-- `resourceBigipLtmNodeDelete`: delete by id; an error propagates, on
success the id is cleared. -/
def resourceBigipLtmNodeDelete (client : BigIPClient) (st : ResourceState) :
    List ApiCall × ResourceState × GoResult :=
  match client.deleteNode st.id with
  | some e => ([ApiCall.deleteNode st.id], st, GoResult.err e)
  | none => ([ApiCall.deleteNode st.id], { st with id := "" }, GoResult.ok)

/- ------------------------------------------------------------------ -/
/- Concrete fixtures used to instantiate the theorems.                 -/
/- ------------------------------------------------------------------ -/

/-- A concrete remote error. -/
def errBoom : ApiError := { msg := "boom" }

/-- Empty local state (fresh resource). -/
def st0 : ResourceState :=
  { id := "", address := "", name := "", monitor := "", rateLimit := ""
    connectionLimit := 0, dynamicRatio := 0 }

/-- Local state tracking an existing static node. -/
def st1 : ResourceState := { st0 with id := "node1", address := "10.0.0.5", name := "node1" }

/-- A client whose every call succeeds and that knows no node. -/
def okClient : BigIPClient :=
  { createNode := fun _ _ _ _ _ _ _ _ => none
    createFQDNNode := fun _ _ _ _ _ _ _ _ _ _ _ => none
    getNode := fun _ => Except.ok none
    modifyNode := fun _ _ => none
    deleteNode := fun _ => none }

/-- A remote node with an empty FQDN name whose address has no IPv4
literal in it. -/
def corruptNode : Node :=
  { address := "corrupt", fqdn := { name := "" }, monitor := "", rateLimit := ""
    connectionLimit := 0, dynamicRatio := 0, state := "" }

/-- A client that returns `corruptNode` for every fetch. -/
def corruptClient : BigIPClient := { okClient with getNode := fun _ => Except.ok (some corruptNode) }

/-- A remote node reporting both an FQDN name and a raw address. -/
def fooNode : Node :=
  { address := "10.1.1.1", fqdn := { name := "foo.example.com" }, monitor := "/Common/icmp"
    rateLimit := "disabled", connectionLimit := 7, dynamicRatio := 2, state := "user-up" }

/-- A client that returns `fooNode` for every fetch. -/
def fooClient : BigIPClient := { okClient with getNode := fun _ => Except.ok (some fooNode) }

/-- A remote static node whose address carries a route-domain suffix. -/
def node1052 : Node :=
  { address := "10.0.0.5%2", fqdn := { name := "" }, monitor := "/Common/icmp"
    rateLimit := "disabled", connectionLimit := 3, dynamicRatio := 4, state := "user-up" }

/-- A client that returns `node1052` for every fetch. -/
def stripClient : BigIPClient := { okClient with getNode := fun _ => Except.ok (some node1052) }

/-- A remote static node stored exactly as created with address
"10.0.0.5". -/
def node1005 : Node :=
  { address := "10.0.0.5", fqdn := { name := "" }, monitor := "/Common/icmp"
    rateLimit := "disabled", connectionLimit := 0, dynamicRatio := 0, state := "user-up" }

/-- A client modelling the remote after a create of "10.0.0.5": creates
succeed and fetches return the stored node. -/
def roundClient : BigIPClient := { okClient with getNode := fun _ => Except.ok (some node1005) }

/-- A client whose modify call always fails. -/
def failModifyClient : BigIPClient := { okClient with modifyNode := fun _ _ => some errBoom }

/-- A client whose FQDN create call always fails. -/
def failFqdnClient : BigIPClient :=
  { okClient with createFQDNNode := fun _ _ _ _ _ _ _ _ _ _ _ => some errBoom }

/-- Base desired-state record for a static node (schema defaults for the
optional fields). -/
def cfg0 : NodeConfig :=
  { name := "node1", address := "10.0.0.5", rate_limit := "disabled"
    connection_limit := 0, dynamic_ratio := 0, ratio := 1, monitor := ""
    state := "user-up", fqdn := [] }

/-- A config whose address is neither an IPv4 dotted-quad nor contains a
colon, yet matches the source's classification regex (unescaped dot). -/
def cfg1a2 : NodeConfig := { cfg0 with address := "1a2a3a4" }

/-- A config with an FQDN-classified address and no fqdn sub-record. -/
def cfgFqdnEmpty : NodeConfig := { cfg0 with address := "example.com" }

/-- One configured fqdn sub-record. -/
def fqdnRec1 : FQDNRecord :=
  { address_family := "ipv4", name := "node.example.com", interval := "60"
    down_interval := 4, autopopulate := "enabled" }

/-- A config with an FQDN-classified address and one fqdn sub-record. -/
def cfgFqdnOne : NodeConfig := { cfg0 with address := "node.example.com", fqdn := [fqdnRec1] }

/-- A config with an FQDN-classified address and two fqdn sub-records. -/
def cfgFqdnTwo : NodeConfig :=
  { cfg0 with
    address := "node.example.com"
    fqdn := [fqdnRec1, { fqdnRec1 with name := "other.example.com" }] }

/- ------------------------------------------------------------------ -/
/- Claims.                                                             -/
/- ------------------------------------------------------------------ -/

/-- Claim C3 (code_bug evidence): a read of an existing node whose remote
FQDN name is empty and whose address is not matched by the IPv4
extraction pattern does NOT fail with an error: the source indexes
`address[1]` on the nil result of `FindStringSubmatch`, so the operation
panics (out-of-range index) — the guard the claim describes is absent —
while local state is left as it was. -/
theorem read_unmatched_address_panics :
    resourceBigipLtmNodeRead corruptClient st1
        = ([ApiCall.getNode "node1"], st1, GoResult.panicked)
    ∧ corruptNode.fqdn.name = ""
    ∧ findIPv4 corruptNode.address.data = none := ⟨rfl, rfl, rfl⟩

/-- Claim C4 (code_bug evidence): an FQDN-classified create with one
configured fqdn sub-record issues no create call at all and panics: the
loop reads key "auto_populate", which is not part of the schema (the
schema declares "autopopulate", here set to "enabled"), so the lookup
yields nil and the string type assertion panics before `CreateFQDNNode`
is reached; the configured autopopulate value is never carried. -/
theorem create_fqdn_autopopulate_key_mismatch :
    resourceBigipLtmNodeCreate okClient cfgFqdnOne st0 = ([], st0, GoResult.panicked)
    ∧ fqdnGet cfgFqdnOne 0 "auto_populate" = Attr.nil
    ∧ fqdnGet cfgFqdnOne 0 "autopopulate" = Attr.str "enabled" := ⟨rfl, rfl, rfl⟩

/-- Claim C5 (code_bug evidence): with more than one configured fqdn
sub-record and a client whose every FQDN create call would fail, create
neither issues any create call nor returns the failure: it panics on the
"auto_populate" lookup, and the resource identifier is not set. -/
theorem create_fqdn_failure_not_surfaced :
    resourceBigipLtmNodeCreate failFqdnClient cfgFqdnTwo st0 = ([], st0, GoResult.panicked)
    ∧ cfgFqdnTwo.fqdn.length = 2
    ∧ (resourceBigipLtmNodeCreate failFqdnClient cfgFqdnTwo st0).2.2 ≠ GoResult.err errBoom
    ∧ (resourceBigipLtmNodeCreate failFqdnClient cfgFqdnTwo st0).2.1.id ≠ cfgFqdnTwo.name :=
  ⟨rfl, rfl, by decide, by decide⟩

/-- Claim C7 (confirmed): when the fetched remote node reports a
non-empty FQDN name, read writes exactly that name as the address (the
raw address string, even if present, is ignored) and returns success. -/
theorem read_prefers_fqdn_name (client : BigIPClient) (st : ResourceState) (node : Node)
    (hget : client.getNode st.id = Except.ok (some node))
    (hfq : node.fqdn.name ≠ "") :
    (resourceBigipLtmNodeRead client st).2.1.address = node.fqdn.name
    ∧ (resourceBigipLtmNodeRead client st).2.2 = GoResult.ok := by
  simp [resourceBigipLtmNodeRead, writeNodeState, hget, hfq]

/-- Witness for C7: a remote node carrying both FQDN name
"foo.example.com" and raw address "10.1.1.1" reads back as
"foo.example.com". -/
theorem read_prefers_fqdn_name_witness :
    fooClient.getNode st1.id = Except.ok (some fooNode)
    ∧ fooNode.fqdn.name ≠ ""
    ∧ (resourceBigipLtmNodeRead fooClient st1).2.1.address = "foo.example.com" :=
  ⟨rfl, by decide, (read_prefers_fqdn_name fooClient st1 fooNode rfl (by decide)).1⟩

/-- Claim C6 (confirmed): an unknown identifier makes read succeed after
clearing the id and makes exists return (false, nil); a fetch error
propagates through both; a found node makes exists return (true, nil);
and on a state whose id was cleared the two calls repeat the same
outcome (the remote not knowing the empty identifier either). -/
theorem read_exists_notfound (client : BigIPClient) (st : ResourceState) :
    (∀ e, client.getNode st.id = Except.error e →
        resourceBigipLtmNodeRead client st = ([ApiCall.getNode st.id], st, GoResult.err e)
        ∧ resourceBigipLtmNodeExists client st
            = ([ApiCall.getNode st.id], st, (false, some e)))
    ∧ (client.getNode st.id = Except.ok none →
        resourceBigipLtmNodeRead client st
            = ([ApiCall.getNode st.id], { st with id := "" }, GoResult.ok)
        ∧ resourceBigipLtmNodeExists client st
            = ([ApiCall.getNode st.id], { st with id := "" }, (false, none)))
    ∧ (∀ node, client.getNode st.id = Except.ok (some node) →
        (resourceBigipLtmNodeExists client st).2.2 = (true, none))
    ∧ (client.getNode "" = Except.ok none →
        resourceBigipLtmNodeRead client { st with id := "" }
            = ([ApiCall.getNode ""], { st with id := "" }, GoResult.ok)
        ∧ resourceBigipLtmNodeExists client { st with id := "" }
            = ([ApiCall.getNode ""], { st with id := "" }, (false, none))) := by
  refine ⟨fun e h => ⟨?_, ?_⟩, fun h => ⟨?_, ?_⟩, fun node h => ?_, fun h => ⟨?_, ?_⟩⟩ <;>
    simp [resourceBigipLtmNodeRead, resourceBigipLtmNodeExists, h]

/-- Witness for C6: with a client that knows no node, read on "node1"
clears the id and succeeds, and a repeated exists on the cleared state
again reports (false, nil). -/
theorem read_exists_notfound_witness :
    resourceBigipLtmNodeRead okClient st1
        = ([ApiCall.getNode "node1"], { st1 with id := "" }, GoResult.ok)
    ∧ resourceBigipLtmNodeExists okClient { st1 with id := "" }
        = ([ApiCall.getNode ""], { st1 with id := "" }, (false, none)) :=
  ⟨((read_exists_notfound okClient st1).2.1 rfl).1,
   ((read_exists_notfound okClient st1).2.2.2 rfl).2⟩

/-- Claim C10 (confirmed): an FQDN-classified create with an empty fqdn
sub-record list issues no create/modify call at all — its whole effect is
setting the id to the name and delegating to read (whose single fetch is
the only remote interaction). -/
theorem create_fqdn_empty_no_call (client : BigIPClient) (cfg : NodeConfig)
    (st : ResourceState)
    (h1 : nodeRegexMatch cfg.address = false) (h2 : cfg.fqdn = []) :
    resourceBigipLtmNodeCreate client cfg st
        = resourceBigipLtmNodeRead client { st with id := cfg.name }
    ∧ (resourceBigipLtmNodeCreate client cfg st).1.all ApiCall.isGet = true := by
  have e1 : resourceBigipLtmNodeCreate client cfg st
      = resourceBigipLtmNodeRead client { st with id := cfg.name } := by
    simp [resourceBigipLtmNodeCreate, h1, h2, fqdnCreateLoop, prependCalls]
  refine ⟨e1, ?_⟩
  rw [e1]
  simp [resourceBigipLtmNodeRead, ApiCall.isGet]

/-- Witness for C10: creating "example.com" with no fqdn sub-record
against a client that knows no node performs only the read fetch. -/
theorem create_fqdn_empty_no_call_witness :
    nodeRegexMatch cfgFqdnEmpty.address = false
    ∧ cfgFqdnEmpty.fqdn = []
    ∧ resourceBigipLtmNodeCreate okClient cfgFqdnEmpty st0
        = resourceBigipLtmNodeRead okClient { st0 with id := cfgFqdnEmpty.name } :=
  ⟨by decide, rfl,
   (create_fqdn_empty_no_call okClient cfgFqdnEmpty st0 (by decide) rfl).1⟩

/-- Helper: as soon as the fqdn list has an entry at index 0, the create
loop panics on its first iteration (the "auto_populate" lookup), issuing
no call. -/
theorem fqdnCreateLoop_panics_first (client : BigIPClient) (cfg : NodeConfig)
    (s : FQDNRecord) (t : List FQDNRecord) (h : cfg.fqdn = s :: t)
    (fuel : Nat) (e0 : Option ApiError) (acc : List ApiCall) :
    fqdnCreateLoop client cfg 0 (fuel + 1) e0 acc = LoopOut.panicked acc.reverse := by
  have h0 : cfg.fqdn[0]? = some s := by rw [h]; simp
  unfold fqdnCreateLoop fqdnGet
  rw [h0]
  rfl

/-- Claim C1 counterexample: an update of an FQDN-classified node whose
modify call fails returns the modify error immediately — the concluding
read is NOT invoked (no fetch in the trace), contradicting "update
always concludes by invoking read". -/
theorem update_fqdn_modify_error_skips_read_cx :
    resourceBigipLtmNodeUpdate failModifyClient cfgFqdnEmpty st1
        = ([ApiCall.modifyNode "node1" (fqdnUpdatePayload cfgFqdnEmpty)], st1,
            GoResult.err errBoom)
    ∧ (resourceBigipLtmNodeUpdate failModifyClient cfgFqdnEmpty st1).1.any ApiCall.isGet
        = false := ⟨rfl, rfl⟩

/-- Claim C1 (corrected): a modify call is issued exactly when the
address is FQDN-classified by the create regex; in the static branch the
payload is built but never sent and update is exactly read; in the FQDN
branch a successful modify is followed by read, while a failed modify
returns its error without reading. -/
theorem update_modify_gating (client : BigIPClient) (cfg : NodeConfig)
    (st : ResourceState) :
    (resourceBigipLtmNodeUpdate client cfg st).1.any ApiCall.isModify
        = !nodeRegexMatch cfg.address
    ∧ (nodeRegexMatch cfg.address = true →
        resourceBigipLtmNodeUpdate client cfg st = resourceBigipLtmNodeRead client st)
    ∧ (nodeRegexMatch cfg.address = false →
        ∀ e, client.modifyNode st.id (fqdnUpdatePayload cfg) = some e →
          resourceBigipLtmNodeUpdate client cfg st
            = ([ApiCall.modifyNode st.id (fqdnUpdatePayload cfg)], st, GoResult.err e))
    ∧ (nodeRegexMatch cfg.address = false →
        client.modifyNode st.id (fqdnUpdatePayload cfg) = none →
          resourceBigipLtmNodeUpdate client cfg st
            = prependCalls [ApiCall.modifyNode st.id (fqdnUpdatePayload cfg)]
                (resourceBigipLtmNodeRead client st)) := by
  refine ⟨?_, fun h => ?_, fun h e hm => ?_, fun h hm => ?_⟩
  · cases hr : nodeRegexMatch cfg.address with
    | true => simp [resourceBigipLtmNodeUpdate, resourceBigipLtmNodeRead, hr, ApiCall.isModify]
    | false =>
      cases hm : client.modifyNode st.id (fqdnUpdatePayload cfg) with
      | some e => simp [resourceBigipLtmNodeUpdate, hr, hm, ApiCall.isModify]
      | none =>
        simp [resourceBigipLtmNodeUpdate, resourceBigipLtmNodeRead, prependCalls, hr, hm,
          ApiCall.isModify]
  · simp [resourceBigipLtmNodeUpdate, h]
  · simp [resourceBigipLtmNodeUpdate, h, hm]
  · simp [resourceBigipLtmNodeUpdate, h, hm]

/-- Witness for C1: a static-address update is exactly a read, and an
FQDN-address update with a successful modify is that modify followed by
the read. -/
theorem update_modify_gating_witness :
    nodeRegexMatch cfg0.address = true
    ∧ resourceBigipLtmNodeUpdate okClient cfg0 st1 = resourceBigipLtmNodeRead okClient st1
    ∧ nodeRegexMatch cfgFqdnEmpty.address = false
    ∧ resourceBigipLtmNodeUpdate okClient cfgFqdnEmpty st1
        = prependCalls [ApiCall.modifyNode "node1" (fqdnUpdatePayload cfgFqdnEmpty)]
            (resourceBigipLtmNodeRead okClient st1) :=
  ⟨by decide, (update_modify_gating okClient cfg0 st1).2.1 (by decide), by decide,
   (update_modify_gating okClient cfgFqdnEmpty st1).2.2.2 (by decide) rfl⟩

/-- Claim C2 counterexample: "1a2a3a4" is neither an IPv4 dotted-quad nor
contains a colon — the spec's classification regex rejects it — yet
create routes it to the static-node call (the source regex's dot is
unescaped); and an FQDN-classified address with a configured sub-record
never reaches the FQDN create call (the loop panics first). -/
theorem create_regex_routing_cx :
    (resourceBigipLtmNodeCreate okClient cfg1a2 st0).1.any ApiCall.isCreateStatic = true
    ∧ specStaticRegexMatch "1a2a3a4" = false
    ∧ ("1a2a3a4".data.any fun ch => ch == ':') = false
    ∧ nodeRegexMatch cfgFqdnOne.address = false
    ∧ (resourceBigipLtmNodeCreate okClient cfgFqdnOne st0).1.any ApiCall.isCreateFqdn
        = false :=
  ⟨by decide, by decide, by decide, by decide, by decide⟩

/-- Claim C2 (corrected): create issues the static-node call exactly when
the source regex (with its unescaped dot) matches the address, and it
never issues the FQDN create call at all — with sub-records configured
the loop panics on the "auto_populate" lookup before the call, and with
none configured the loop body never runs. -/
theorem create_static_call_iff_source_regex (client : BigIPClient) (cfg : NodeConfig)
    (st : ResourceState) :
    (resourceBigipLtmNodeCreate client cfg st).1.any ApiCall.isCreateStatic
        = nodeRegexMatch cfg.address
    ∧ (resourceBigipLtmNodeCreate client cfg st).1.any ApiCall.isCreateFqdn = false := by
  cases hr : nodeRegexMatch cfg.address with
  | true =>
    cases hc : client.createNode cfg.name cfg.address cfg.rate_limit cfg.connection_limit
        cfg.dynamic_ratio cfg.ratio cfg.monitor cfg.state with
    | some e =>
      constructor <;>
        simp [resourceBigipLtmNodeCreate, hr, hc, ApiCall.isCreateStatic, ApiCall.isCreateFqdn]
    | none =>
      constructor <;>
        simp [resourceBigipLtmNodeCreate, resourceBigipLtmNodeRead, prependCalls, hr, hc,
          ApiCall.isCreateStatic, ApiCall.isCreateFqdn]
  | false =>
    cases hf : cfg.fqdn with
    | nil =>
      have hlen : cfg.fqdn.length = 0 := by rw [hf]; rfl
      constructor <;>
        simp [resourceBigipLtmNodeCreate, resourceBigipLtmNodeRead, prependCalls, hr, hlen,
          fqdnCreateLoop, ApiCall.isCreateStatic, ApiCall.isCreateFqdn, ApiCall.isGet]
    | cons s t =>
      have hlen : cfg.fqdn.length = t.length + 1 := by rw [hf]; rfl
      have hp := fqdnCreateLoop_panics_first client cfg s t hf t.length none []
      constructor <;> simp [resourceBigipLtmNodeCreate, hr, hlen, hp]

/-- Claim C9 (confirmed): updating a static-classified node never issues
a modify call, and — the tracked node being consistent with the remote —
the concluding read writes back exactly the address the state held
before the update, whatever the mutable fields of the config are. -/
theorem update_static_preserves_address (client : BigIPClient) (cfg : NodeConfig)
    (st : ResourceState) (node : Node)
    (hstatic : nodeRegexMatch cfg.address = true)
    (hget : client.getNode st.id = Except.ok (some node))
    (hfq : node.fqdn.name = "")
    (hip : findIPv4 node.address.data = some st.address) :
    (resourceBigipLtmNodeUpdate client cfg st).1.any ApiCall.isModify = false
    ∧ (resourceBigipLtmNodeUpdate client cfg st).2.1.address = st.address
    ∧ (resourceBigipLtmNodeUpdate client cfg st).2.2 = GoResult.ok := by
  have hu : resourceBigipLtmNodeUpdate client cfg st = resourceBigipLtmNodeRead client st := by
    simp [resourceBigipLtmNodeUpdate, hstatic]
  rw [hu]
  simp [resourceBigipLtmNodeRead, writeNodeState, hget, hfq, hip, ApiCall.isModify]

/-- Witness for C9: updating the static node "10.0.0.5" (remote address
"10.0.0.5%2") leaves the tracked address at "10.0.0.5" and issues no
modify call. -/
theorem update_static_preserves_address_witness :
    nodeRegexMatch cfg0.address = true
    ∧ (resourceBigipLtmNodeUpdate stripClient cfg0 st1).2.1.address = "10.0.0.5"
    ∧ (resourceBigipLtmNodeUpdate stripClient cfg0 st1).1.any ApiCall.isModify = false :=
  ⟨by decide,
   (update_static_preserves_address stripClient cfg0 st1 node1052
     (by decide) rfl rfl (by decide)).2.1,
   (update_static_preserves_address stripClient cfg0 st1 node1052
     (by decide) rfl rfl (by decide)).1⟩

/-- Helper: the `[0-9]\x7b1,3\x7d\.` chunk consumes exactly an octet and
its following dot. -/
theorem matchOctetDot_append (a r : List Char) (h : isOctet a = true) :
    matchOctetDot (a ++ '.' :: r) = some (a ++ ['.'], r) := by
  match a, h with
  | [], h => exact Bool.noConfusion h
  | [x], h =>
    have hx : x.isDigit = true := h
    simp [matchOctetDot, hx]
  | [x, y], h =>
    have h2 : (x.isDigit && y.isDigit) = true := h
    rw [Bool.and_eq_true] at h2
    obtain ⟨hx, hy⟩ := h2
    have hy2 : ¬(y = '.') := fun he => absurd (he ▸ hy) (by decide)
    simp [matchOctetDot, hx, hy, hy2]
  | [x, y, z], h =>
    have h3 : (x.isDigit && y.isDigit && z.isDigit) = true := h
    rw [Bool.and_eq_true, Bool.and_eq_true] at h3
    obtain ⟨⟨hx, hy⟩, hz⟩ := h3
    have hy2 : ¬(y = '.') := fun he => absurd (he ▸ hy) (by decide)
    have hz2 : ¬(z = '.') := fun he => absurd (he ▸ hz) (by decide)
    simp [matchOctetDot, hx, hy, hz, hy2, hz2]
  | x :: y :: z :: w :: t, h => exact Bool.noConfusion h

/-- Helper: the final `[0-9]\x7b1,3\x7d` chunk captures exactly the
octet, both at the end of the input and before a non-digit character. -/
theorem matchFinalOctet_append (a : List Char) (h : isOctet a = true) :
    matchFinalOctet a = some a
    ∧ ∀ ch t, ch.isDigit = false → matchFinalOctet (a ++ ch :: t) = some a := by
  match a, h with
  | [], h => exact Bool.noConfusion h
  | [x], h =>
    have hx : x.isDigit = true := h
    exact ⟨by simp [matchFinalOctet, hx],
      fun ch t hch => by simp [matchFinalOctet, hx, hch]⟩
  | [x, y], h =>
    have h2 : (x.isDigit && y.isDigit) = true := h
    rw [Bool.and_eq_true] at h2
    obtain ⟨hx, hy⟩ := h2
    exact ⟨by simp [matchFinalOctet, hx, hy],
      fun ch t hch => by simp [matchFinalOctet, hx, hy, hch]⟩
  | [x, y, z], h =>
    have h3 : (x.isDigit && y.isDigit && z.isDigit) = true := h
    rw [Bool.and_eq_true, Bool.and_eq_true] at h3
    obtain ⟨⟨hx, hy⟩, hz⟩ := h3
    exact ⟨by simp [matchFinalOctet, hx, hy, hz],
      fun ch t hch => by simp [matchFinalOctet, hx, hy, hz]⟩
  | x :: y :: z :: w :: t, h => exact Bool.noConfusion h

/-- Helper: the whole extraction pattern matches a dotted quad (with an
optional non-digit-headed tail) at the current position, capturing the
quad without the tail. -/
theorem matchIPAt_quad (a b c d4 suf : List Char)
    (ha : isOctet a = true) (hb : isOctet b = true) (hcc : isOctet c = true)
    (hd : isOctet d4 = true)
    (hs : suf = [] ∨ ∃ ch t, suf = ch :: t ∧ ch.isDigit = false) :
    matchIPAt (a ++ '.' :: (b ++ '.' :: (c ++ '.' :: (d4 ++ suf))))
      = some (a ++ '.' :: (b ++ '.' :: (c ++ '.' :: d4))) := by
  have hfin : matchFinalOctet (d4 ++ suf) = some d4 := by
    rcases hs with hre | ⟨ch, t, hre, hch⟩
    · rw [hre, List.append_nil]
      exact (matchFinalOctet_append d4 hd).1
    · rw [hre]
      exact (matchFinalOctet_append d4 hd).2 ch t hch
  unfold matchIPAt
  rw [matchOctetDot_append a _ ha]
  dsimp only
  rw [matchOctetDot_append b _ hb]
  dsimp only
  rw [matchOctetDot_append c _ hcc]
  dsimp only
  rw [hfin]
  simp [List.append_assoc]

/-- Helper: the leftmost match of the extraction pattern on a string that
IS a dotted quad plus optional tail starts at position 0. -/
theorem findIPv4_quad (a b c d4 suf : List Char)
    (ha : isOctet a = true) (hb : isOctet b = true) (hcc : isOctet c = true)
    (hd : isOctet d4 = true)
    (hs : suf = [] ∨ ∃ ch t, suf = ch :: t ∧ ch.isDigit = false) :
    findIPv4 (a ++ '.' :: (b ++ '.' :: (c ++ '.' :: (d4 ++ suf))))
      = some (String.mk (a ++ '.' :: (b ++ '.' :: (c ++ '.' :: d4)))) := by
  have hm := matchIPAt_quad a b c d4 suf ha hb hcc hd hs
  match a, ha with
  | [], ha => exact Bool.noConfusion ha
  | x :: t2, _ =>
    rw [List.cons_append] at hm ⊢
    simp only [findIPv4]
    rw [hm]

/-- Claim C8 (confirmed): a remote address that is an IPv4 dotted-quad
with an optional `%<int>` route-domain suffix reads back as exactly the
dotted quad, and the concrete round trip create("10.0.0.5") → read
yields "10.0.0.5" exactly. -/
theorem read_strips_route_domain :
    (∀ (a b c d4 suf : List Char) (client : BigIPClient) (st : ResourceState) (node : Node),
        isOctet a = true → isOctet b = true → isOctet c = true → isOctet d4 = true →
        (suf = [] ∨ ∃ e2, e2 ≠ [] ∧ e2.all Char.isDigit = true ∧ suf = '%' :: e2) →
        client.getNode st.id = Except.ok (some node) →
        node.fqdn.name = "" →
        node.address = String.mk (a ++ '.' :: (b ++ '.' :: (c ++ '.' :: (d4 ++ suf)))) →
        (resourceBigipLtmNodeRead client st).2.1.address
            = String.mk (a ++ '.' :: (b ++ '.' :: (c ++ '.' :: d4)))
        ∧ (resourceBigipLtmNodeRead client st).2.2 = GoResult.ok)
    ∧ (resourceBigipLtmNodeCreate roundClient cfg0 st0).2.1.address = "10.0.0.5"
    ∧ (resourceBigipLtmNodeCreate roundClient cfg0 st0).2.2 = GoResult.ok := by
  refine ⟨?_, rfl, rfl⟩
  intro a b c d4 suf client st node ha hb hcc hd hs hget hfq haddr
  have hs2 : suf = [] ∨ ∃ ch t, suf = ch :: t ∧ ch.isDigit = false := by
    rcases hs with h | ⟨e2, _, _, he⟩
    · exact Or.inl h
    · exact Or.inr ⟨'%', e2, he, by decide⟩
  have hip : findIPv4 node.address.data
      = some (String.mk (a ++ '.' :: (b ++ '.' :: (c ++ '.' :: d4)))) := by
    rw [haddr]
    exact findIPv4_quad a b c d4 suf ha hb hcc hd hs2
  simp [resourceBigipLtmNodeRead, writeNodeState, hget, hfq, hip]

/-- Witness for C8: remote address "10.0.0.5%2" reads back as
"10.0.0.5". -/
theorem read_strips_route_domain_witness :
    stripClient.getNode st1.id = Except.ok (some node1052)
    ∧ node1052.address
        = String.mk (['1', '0'] ++ '.' :: (['0'] ++ '.' :: (['0'] ++ '.' :: (['5'] ++ ['%', '2']))))
    ∧ (resourceBigipLtmNodeRead stripClient st1).2.1.address = "10.0.0.5" := by
  refine ⟨rfl, by decide, ?_⟩
  have h := read_strips_route_domain.1 ['1', '0'] ['0'] ['0'] ['5'] ['%', '2'] stripClient st1
    node1052 (by decide) (by decide) (by decide) (by decide)
    (Or.inr ⟨['2'], by decide, by decide, rfl⟩) rfl rfl (by decide)
  exact h.1.trans (by decide)

end TFBigip
